import Mathlib

/-!
Verification development for the variable-typing and feature-selection
toolbox (`toolbox_ML.py`): column profiling (`describe_df`), type
classification (`tipifica_variables`), parameter validation
(`check_parametros`) and the two feature selectors
(`get_features_num_regression`, `get_features_cat_regression`).

Tables are modelled as lists of named, typed columns of cells.  A cell is
a rational number, a string, or null (pandas `NaN`/`None`).  Machine
floats are modelled as rationals.  The external statistical routines of
scipy (`pearsonr`, `mannwhitneyu`, `f_oneway`) are not repository code:
they are taken as oracle parameters returning a (statistic, p-value)
pair, with only their documented argument-validation behaviour
(`f_oneway` requires at least two samples, `mannwhitneyu` requires
nonempty samples) modelled explicitly.
-/

namespace ToolboxML

/-- A cell of a pandas column: numeric value, string value, or null. -/
inductive Cell where
  | num (q : ℚ)
  | str (s : String)
  | null
deriving DecidableEq, Repr

/-- A pandas column dtype: numeric (`np.number` subdtype) or object. -/
inductive Dtype where
  | numeric
  | object
deriving DecidableEq, Repr

/-- A named column with its declared dtype and cell values. -/
structure Column where
  name : String
  dtype : Dtype
  values : List Cell
deriving DecidableEq, Repr

/-- A DataFrame: ordered list of columns.  Tables are rectangular, so the
row count (`len(df)`) is read from the first column. -/
abbrev DataFrame := List Column

/-- Row count, `len(df)`: the number of rows, read from the first column (all columns
of a pandas frame have the same length). -/
def numRows : DataFrame → ℕ
  | [] => 0
  | c :: _ => c.values.length

/-- pandas `Series.unique()`: distinct values in order of first
appearance, with all nulls collapsed into a single null entry.
Implemented as reverse-dedup-reverse, since `List.dedup` keeps the last
occurrence. -/
def uniquePy (l : List Cell) : List Cell :=
  (l.reverse.dedup).reverse

/-- pandas `Series.nunique()`: number of distinct non-null values. -/
def nunique (c : Column) : ℕ :=
  ((uniquePy c.values).filter (fun x => x ≠ Cell.null)).length

/-- Whether a cell is null (pandas `isnull`). -/
def isNullCell (x : Cell) : Bool :=
  x == Cell.null

/-- Python `==` on cells: null compares unequal to everything, itself
included (NaN semantics); values of different kinds compare unequal. -/
def cellEqPy : Cell → Cell → Bool
  | Cell.num a, Cell.num b => a == b
  | Cell.str a, Cell.str b => a == b
  | _, _ => false

/-- Floor of a rational, computed by floor-division of numerator by
denominator (kernel-reducible, unlike the `FloorRing` instance). -/
def floorQ (q : ℚ) : ℤ :=
  Int.fdiv q.num (q.den : ℤ)

/-- Round a rational to the nearest integer, ties to even (Python
`round`). -/
def roundHalfEven (q : ℚ) : ℤ :=
  let f := floorQ q
  let r := q - f
  if r < 1/2 then f
  else if 1/2 < r then f + 1
  else if f % 2 = 0 then f else f + 1

/-- Python `round(q, 2)`. -/
def round2 (q : ℚ) : ℚ :=
  (roundHalfEven (q * 100) : ℚ) / 100

/-- The cardinality percentage computed by `describe_df` for a column:
`round(nunique/len(df)*100, 2)`. -/
def cardin (df : DataFrame) (c : Column) : ℚ :=
  round2 ((nunique c : ℚ) / (numRows df : ℚ) * 100)

/-- The missing percentage computed by `describe_df` for a column:
`round(isnull().sum()/len(column), 2)`. -/
def missings (c : Column) : ℚ :=
  round2 (((c.values.filter (fun x => isNullCell x)).length : ℚ) / (c.values.length : ℚ))

/-- Per-column profile produced by `describe_df`: DATA_TYPE,
MISSINGS (%), UNIQUE_VALUES, CARDIN (%). -/
structure Perfil where
  data_type : Dtype
  missingsPct : ℚ
  unique_values : ℕ
  cardinPct : ℚ
deriving DecidableEq, Repr

/-- Profiler `describe_df`: one profile per column, in column order. -/
def describe_df (df : DataFrame) : List (String × Perfil) :=
  df.map (fun c =>
    (c.name,
      { data_type := c.dtype
        missingsPct := missings c
        unique_values := nunique c
        cardinPct := cardin df c }))

/-- The four sequential `.loc` mask assignments of `tipifica_variables`,
applied to one column's profile.  Later assignments overwrite earlier
ones; a column matching no mask keeps no suggested type (`none`, i.e.
`NaN` in the produced frame). -/
def tipoSugerido (uv : ℕ) (card : ℚ) (umbral_categoria umbral_continua : ℚ) : Option String :=
  let t1 : Option String :=
    if (uv : ℚ) ≥ umbral_categoria ∧ card > umbral_continua then some "Numérica continua"
    else none
  let t2 : Option String :=
    if (uv : ℚ) ≥ umbral_categoria ∧ card < umbral_continua then some "Numérica discreta"
    else t1
  let t3 : Option String :=
    if (uv : ℚ) < umbral_categoria then some "Categórica" else t2
  if uv = 2 then some "Binaria" else t3

/-- Classifier `tipifica_variables`: pairs (nombre_variable, tipo_sugerido), one per
column in column order, built on the `describe_df` profiles. -/
def tipifica_variables (df : DataFrame) (umbral_categoria umbral_continua : ℚ) :
    List (String × Option String) :=
  (describe_df df).map (fun p =>
    (p.1, tipoSugerido p.2.unique_values p.2.cardinPct umbral_categoria umbral_continua))

/-- A Python numeric argument value, carrying its runtime type tag
(`int` vs `float`), as inspected by `check_parametros` via `type(...)`. -/
inductive PyNum where
  | int (n : ℤ)
  | float (q : ℚ)
deriving DecidableEq, Repr

/-- Numeric value of a Python numeric argument. -/
def PyNum.val : PyNum → ℚ
  | PyNum.int n => (n : ℚ)
  | PyNum.float q => q

/-- Python `type(x) == int`. -/
def PyNum.isInt : PyNum → Bool
  | PyNum.int _ => true
  | PyNum.float _ => false

/-- Python `type(x) == float`. -/
def PyNum.isFloat : PyNum → Bool
  | PyNum.int _ => false
  | PyNum.float _ => true

/-- Validator `check_parametros`: sequential argument validation, short-circuiting
on the first failure with the printed error message.  The leading
`isinstance(df, pd.DataFrame)` check always passes here because the
embedding types `df` as a DataFrame.  Column-name quotes of the original
f-string messages are omitted.  The `isinstance(pvalue, (float, int))`
part of the last check always passes because `PyNum` only carries ints
and floats. -/
def check_parametros (df : DataFrame) (target_col : String) (umbral_corr : PyNum)
    (umbral_categoria : PyNum) (umbral_continua : PyNum) (pvalue : Option PyNum) :
    Except String String :=
  match df.find? (fun c => c.name = target_col) with
  | none => Except.error ("Error: la columna " ++ target_col ++ " no existe en el DataFrame.")
  | some col =>
    if ¬ (col.dtype = Dtype.numeric) then
      Except.error ("Error: la columna " ++ target_col ++ " no es numérica.")
    else if nunique col < 10 then
      Except.error ("Error: " ++ target_col ++ " no parece ser una variable continua (baja cardinalidad).")
    else if ¬ (0 ≤ umbral_corr.val ∧ umbral_corr.val ≤ 1) then
      Except.error "Error: umbral_corr debe estar entre 0 y 1."
    else if ¬ umbral_categoria.isInt ∨ umbral_categoria.val < 0 then
      Except.error "Error: umbral_categoria debe ser un número entero."
    else if ¬ umbral_continua.isFloat ∨ umbral_continua.val < 0 then
      Except.error "Error: umbral_continua debe ser un número decimal."
    else
      match pvalue with
      | some p =>
        if ¬ (0 < p.val ∧ p.val < 1) then
          Except.error "Error: pvalue debe ser un número entre 0 y 1 o None."
        else Except.ok "OK"
      | none => Except.ok "OK"

instance : DecidableEq (Except String String) := fun a b =>
  match a, b with
  | Except.ok x, Except.ok y =>
    if h : x = y then isTrue (by rw [h]) else isFalse (by intro he; cases he; exact h rfl)
  | Except.error x, Except.error y =>
    if h : x = y then isTrue (by rw [h]) else isFalse (by intro he; cases he; exact h rfl)
  | Except.ok _, Except.error _ => isFalse (by intro he; cases he)
  | Except.error _, Except.ok _ => isFalse (by intro he; cases he)

/-- Pairwise complete cases, `df[[target_col, col]].dropna()`, restricted to the two columns and
mapped to rational pairs: keep the rows where both cells are numeric
(non-null), pairing target value with column value. -/
def dropnaPairs (tvals cvals : List Cell) : List (ℚ × ℚ) :=
  (tvals.zip cvals).filterMap (fun p =>
    match p with
    | (Cell.num a, Cell.num b) => some (a, b)
    | _ => none)

/-- The numeric-column candidate test of `get_features_num_regression`:
`select_dtypes(include=[np.number]).columns.drop(target_col)`. -/
def esNumericaNoTarget (target_col : String) (c : Column) : Bool :=
  decide (c.dtype = Dtype.numeric) && decide (c.name ≠ target_col)

/-- The per-column inclusion criterion of `get_features_num_regression`
applied to a returned `(corr, pval)` pair:
`abs(corr) >= umbral_corr and (pvalue is None or pval <= 1 - pvalue)`. -/
def criterioNumPair (cp : ℚ × ℚ) (umbral_corr : ℚ) (pvalue : Option PyNum) : Bool :=
  decide (|cp.1| ≥ umbral_corr) &&
    (match pvalue with
     | none => true
     | some p => decide (cp.2 ≤ 1 - p.val))

/-- Modelled from the scipy documentation: `pearsonr` raises `ValueError`
when its inputs have fewer than 2 observations; otherwise the oracle
supplies the (correlation, p-value) result. -/
def pearsonrCall (pearson : List (ℚ × ℚ) → ℚ × ℚ) (pairs : List (ℚ × ℚ)) :
    Except String (ℚ × ℚ) :=
  if pairs.length < 2 then Except.error "x and y must have length at least 2."
  else Except.ok (pearson pairs)

/-- The candidate loop of `get_features_num_regression`: for each numeric
non-target column, compute `pearsonr` on the pairwise-complete cases and
accumulate the columns passing the criterion, aborting on the first
propagated exception. -/
def gfnrLoop (pearson : List (ℚ × ℚ) → ℚ × ℚ) (tvals : List Cell) (umbral_corr : ℚ)
    (pvalue : Option PyNum) : List Column → List String → Except String (List String)
  | [], acc => Except.ok acc
  | col :: rest, acc =>
    match pearsonrCall pearson (dropnaPairs tvals col.values) with
    | Except.error e => Except.error e
    | Except.ok cp =>
      if criterioNumPair cp umbral_corr pvalue then
        gfnrLoop pearson tvals umbral_corr pvalue rest (acc ++ [col.name])
      else gfnrLoop pearson tvals umbral_corr pvalue rest acc

/-- Numeric selector `get_features_num_regression`: `Except.ok none`
(Python `None`) when validation fails, otherwise the names of the
numeric non-target columns passing the correlation/significance
criterion, in column order.  `pearson` is the scipy `pearsonr` oracle;
`Except.error` models an uncaught scipy exception (a column with fewer
than 2 pairwise-complete rows) aborting the whole call.  Validation
guarantees the target column exists, so the inner `find?` fallback is
unreachable. -/
def get_features_num_regression (pearson : List (ℚ × ℚ) → ℚ × ℚ) (df : DataFrame)
    (target_col : String) (umbral_corr : PyNum) (pvalue : Option PyNum) :
    Except String (Option (List String)) :=
  if check_parametros df target_col umbral_corr (PyNum.int 0) (PyNum.float (1/2)) pvalue
      ≠ Except.ok "OK" then Except.ok none
  else
    match df.find? (fun c => c.name = target_col) with
    | none => Except.ok (some [])
    | some tcol =>
      match gfnrLoop pearson tcol.values umbral_corr.val pvalue
          (df.filter (esNumericaNoTarget target_col)) [] with
      | Except.error e => Except.error e
      | Except.ok l => Except.ok (some l)

/-- Group extraction `df.loc[df[categoria] == v][target_col]`: the target cells of the
rows whose candidate-column cell equals `v` under Python `==` (so rows
with a null candidate cell match nothing, null `v` included). -/
def grupo (cvals tvals : List Cell) (v : Cell) : List Cell :=
  ((cvals.zip tvals).filter (fun p => cellEqPy p.1 v)).map (fun p => p.2)

/-- The branch test of `get_features_cat_regression`:
`len(df[categoria].unique()) == 2` (null counts as a distinct value). -/
def ramaBinaria (c : Column) : Bool :=
  (uniquePy c.values).length == 2

/-- Modelled from the scipy documentation: `mannwhitneyu` raises when
either sample is empty; otherwise the oracle supplies the
(statistic, p-value) result. -/
def mannwhitneyuCall (mw : List Cell → List Cell → ℚ × ℚ) (a b : List Cell) :
    Except String (ℚ × ℚ) :=
  if a.isEmpty || b.isEmpty then Except.error "mannwhitneyu requires nonempty samples"
  else Except.ok (mw a b)

/-- Modelled from the scipy documentation: `f_oneway` raises `TypeError`
when fewer than two samples are supplied; otherwise the oracle supplies
the (statistic, p-value) result. -/
def f_onewayCall (anova : List (List Cell) → ℚ × ℚ) (groups : List (List Cell)) :
    Except String (ℚ × ℚ) :=
  if groups.length < 2 then Except.error "at least two inputs are required"
  else Except.ok (anova groups)

/-- One iteration of the candidate loop of `get_features_cat_regression`:
look the candidate column up by name, branch on
`len(unique()) == 2` (Mann-Whitney U on the two groups) versus the rest
(one-way ANOVA across all groups of `unique()`, null group included),
and report whether `p_valor <= pvalue`.  A scipy exception propagates as
`Except.error`. -/
def testCandidate (mw : List Cell → List Cell → ℚ × ℚ)
    (anova : List (List Cell) → ℚ × ℚ) (df : DataFrame) (tvals : List Cell)
    (pval : ℚ) (name : String) : Except String Bool :=
  match df.find? (fun c => c.name = name) with
  | none => Except.ok false
  | some col =>
    if ramaBinaria col then
      match uniquePy col.values with
      | es_a :: es_b :: _ =>
        match mannwhitneyuCall mw (grupo col.values tvals es_a) (grupo col.values tvals es_b) with
        | Except.error e => Except.error e
        | Except.ok r => Except.ok (decide (r.2 ≤ pval))
      | _ => Except.ok false
    else
      match f_onewayCall anova ((uniquePy col.values).map (fun g => grupo col.values tvals g)) with
      | Except.error e => Except.error e
      | Except.ok r => Except.ok (decide (r.2 ≤ pval))

/-- The candidate loop of `get_features_cat_regression`: accumulate the
candidates whose test passes, aborting on the first propagated
exception. -/
def gfcrLoop (mw : List Cell → List Cell → ℚ × ℚ)
    (anova : List (List Cell) → ℚ × ℚ) (df : DataFrame) (tvals : List Cell)
    (pval : ℚ) : List String → List String → Except String (List String)
  | [], acc => Except.ok acc
  | name :: rest, acc =>
    match testCandidate mw anova df tvals pval name with
    | Except.error e => Except.error e
    | Except.ok true => gfcrLoop mw anova df tvals pval rest (acc ++ [name])
    | Except.ok false => gfcrLoop mw anova df tvals pval rest acc

/-- Categorical selector `get_features_cat_regression`: validate (returning Python `None`,
here `Except.ok none`, on rejection), classify with
`tipifica_variables`, take the columns typed Categórica or Binaria in
order, and run the per-candidate tests.  `Except.error` models an
uncaught scipy exception aborting the whole call; `umbral_corr` keeps
its default `0.5` in the validation call.  Validation guarantees the
target exists, so the inner `find?` fallback is unreachable. -/
def get_features_cat_regression (mw : List Cell → List Cell → ℚ × ℚ)
    (anova : List (List Cell) → ℚ × ℚ) (df : DataFrame) (target_col : String)
    (pvalue umbral_categoria umbral_continua : PyNum) :
    Except String (Option (List String)) :=
  if check_parametros df target_col (PyNum.float (1/2)) umbral_categoria umbral_continua
      (some pvalue) ≠ Except.ok "OK" then Except.ok none
  else
    match df.find? (fun c => c.name = target_col) with
    | none => Except.ok (some [])
    | some tcol =>
      let df_tipo := tipifica_variables df umbral_categoria.val umbral_continua.val
      let lista_categoricas :=
        (df_tipo.filter (fun p =>
          decide (p.2 = some "Categórica") || decide (p.2 = some "Binaria"))).map (fun p => p.1)
      match gfcrLoop mw anova df tcol.values pvalue.val lista_categoricas [] with
      | Except.error e => Except.error e
      | Except.ok l => Except.ok (some l)

/-! Concrete tables and oracles used by the witness and counterexample
theorems below. -/

/-- A numeric column with the four distinct values 1..4. -/
def dfC4 : DataFrame := [⟨"x", Dtype.numeric, [Cell.num 1, Cell.num 2, Cell.num 3, Cell.num 4]⟩]

/-- A numeric column with the five distinct values 1..5. -/
def dfC6 : DataFrame :=
  [⟨"x", Dtype.numeric, [Cell.num 1, Cell.num 2, Cell.num 3, Cell.num 4, Cell.num 5]⟩]

/-- A numeric column with the three distinct values 1..3. -/
def dfW4 : DataFrame := [⟨"x", Dtype.numeric, [Cell.num 1, Cell.num 2, Cell.num 3]⟩]

/-- A two-valued string column. -/
def dfW1 : DataFrame := [⟨"b", Dtype.object, [Cell.str "s", Cell.str "n", Cell.str "s"]⟩]

/-- A valid regression target: numeric with 12 distinct values. -/
def colY12 : Column :=
  ⟨"y", Dtype.numeric, [0, 1, 2, 3, 4, 5, 6, 7, 8, 9, 10, 11].map (fun n => Cell.num n)⟩

/-- A constant (single-valued) categorical column. -/
def colConst : Column := ⟨"c", Dtype.object, List.replicate 12 (Cell.str "a")⟩

/-- A valid target plus a constant (single-valued) categorical column. -/
def dfDegenerada : DataFrame := [colY12, colConst]

/-- A constant `pearsonr` oracle reporting zero correlation. -/
def pearsonCero : List (ℚ × ℚ) → ℚ × ℚ := fun _ => (0, 0)

/-- A second constant Mann-Whitney oracle, distinct from `mwCero`. -/
def mwUno : List Cell → List Cell → ℚ × ℚ := fun _ _ => (1, 1)

/-- A valid regression target column with 10 distinct values. -/
def colYW : Column := ⟨"y", Dtype.numeric, [0, 1, 2, 3, 4, 5, 6, 7, 8, 9].map (fun n => Cell.num n)⟩

/-- A second numeric column alongside the target. -/
def colXW : Column := ⟨"x", Dtype.numeric, [0, 1, 2, 3, 4, 5, 6, 7, 8, 9].map (fun n => Cell.num n)⟩

/-- A valid target plus a second numeric column. -/
def dfNum2 : DataFrame := [colYW, colXW]

/-- A numeric target column with exactly 5 distinct values. -/
def colT5 : Column :=
  ⟨"y", Dtype.numeric, [Cell.num 1, Cell.num 2, Cell.num 3, Cell.num 4, Cell.num 5, Cell.num 1]⟩

/-- A table whose only column is the 5-distinct-value target. -/
def dfTarget5 : DataFrame := [colT5]

/-- A column with one null and exactly 2 distinct non-null values. -/
def colBinNull : Column := ⟨"c", Dtype.object, [Cell.str "a", Cell.null, Cell.str "b"]⟩

/-- An all-null numeric column: it leaves no pairwise-complete rows. -/
def colZnan : Column := ⟨"z", Dtype.numeric, List.replicate 12 Cell.null⟩

/-- A valid target plus an all-null numeric candidate column. -/
def dfNaN : DataFrame := [colY12, colZnan]

/-- A constant `pearsonr` oracle reporting perfect correlation. -/
def pearsonUno : List (ℚ × ℚ) → ℚ × ℚ := fun _ => (1, 0)

/-- A constant Mann-Whitney oracle. -/
def mwCero : List Cell → List Cell → ℚ × ℚ := fun _ _ => (0, 0)

/-- A constant ANOVA oracle. -/
def anovaCero : List (List Cell) → ℚ × ℚ := fun _ => (0, 0)

/-! Helper lemmas shared by the claim theorems. -/

/-- Entry `i` of `tipifica_variables` is the column's name paired with
`tipoSugerido` of its profile. -/
lemma tipifica_getElem (df : DataFrame) (catT contT : ℚ) (i : ℕ) (hi : i < df.length) :
    (tipifica_variables df catT contT)[i]? =
      some ((df[i]).name, tipoSugerido (nunique df[i]) (cardin df df[i]) catT contT) := by
  simp [tipifica_variables, describe_df, List.getElem?_map, List.getElem?_eq_getElem hi]

/-- For a column with `unique_count >= umbral_categoria` and not exactly
2 unique values, `tipoSugerido` is continuous above the threshold,
discrete below it, and unassigned at exact equality. -/
lemma tipoSugerido_of_ge (uv : ℕ) (card catT contT : ℚ) (h2 : uv ≠ 2)
    (hcat : (uv : ℚ) ≥ catT) :
    tipoSugerido uv card catT contT =
      if card > contT then some "Numérica continua"
      else if card < contT then some "Numérica discreta"
      else none := by
  have hnotlt : ¬ ((uv : ℚ) < catT) := not_lt.mpr hcat
  rcases lt_trichotomy card contT with h | h | h
  · simp [tipoSugerido, h2, hnotlt, hcat, h, not_lt.mpr h.le]
  · simp [tipoSugerido, h2, hnotlt, hcat, h]
  · simp [tipoSugerido, h2, hnotlt, hcat, h, not_lt.mpr h.le, lt_asymm h]

/-- Claim C1: every column with exactly 2 unique (distinct non-null)
values is assigned Binaria by `tipifica_variables`, for every pair of
thresholds. -/
theorem claim_C1_binaria_overrides (df : DataFrame) (catT contT : ℚ) (i : ℕ)
    (hi : i < df.length) (h2 : nunique df[i] = 2) :
    (tipifica_variables df catT contT)[i]? = some ((df[i]).name, some "Binaria") := by
  rw [tipifica_getElem df catT contT i hi]
  simp [tipoSugerido, h2]

/-- Witness for claim C1 on a concrete 2-valued column, with thresholds
that would otherwise classify it as Categórica (`umbral_categoria = 5`). -/
theorem claim_C1_witness :
    (tipifica_variables dfW1 5 100)[0]? = some ("b", some "Binaria") :=
  claim_C1_binaria_overrides dfW1 5 100 0 (by decide) (by decide)

/-- Counterexample to claim C4: a column with 4 unique values, threshold
`umbral_categoria = 4` and cardinality percentage exactly equal to
`umbral_continua = 100` is assigned no type at all (NaN), not
Numérica discreta. -/
theorem claim_C4_counterexample :
    nunique (dfC4.get ⟨0, by decide⟩) = 4 ∧
    cardin dfC4 (dfC4.get ⟨0, by decide⟩) = 100 ∧
    tipifica_variables dfC4 4 100 = [("x", none)] := by
  refine ⟨by decide, ?_, ?_⟩
  · with_unfolding_all rfl
  · with_unfolding_all rfl

/-- Claim C4 as amended: for a column without exactly 2 unique values and
with `unique_count >= umbral_categoria`, `tipifica_variables` assigns
Numérica continua when the cardinality percentage is strictly above
`umbral_continua`, Numérica discreta when strictly below, and no type at
all when exactly equal (both mask comparisons are strict). -/
theorem claim_C4_amended_numeric_split (df : DataFrame) (catT contT : ℚ) (i : ℕ)
    (hi : i < df.length) (h2 : nunique df[i] ≠ 2)
    (hcat : (nunique df[i] : ℚ) ≥ catT) :
    (tipifica_variables df catT contT)[i]? =
      some ((df[i]).name,
        if cardin df df[i] > contT then some "Numérica continua"
        else if cardin df df[i] < contT then some "Numérica discreta"
        else none) := by
  rw [tipifica_getElem df catT contT i hi]
  rw [tipoSugerido_of_ge _ _ _ _ h2 hcat]

/-- Witness for amended claim C4: a 3-valued column with
`umbral_categoria = 3` and cardinality 100 below `umbral_continua = 150`
is Numérica discreta. -/
theorem claim_C4_witness :
    (tipifica_variables dfW4 3 150)[0]? = some ("x", some "Numérica discreta") := by
  have h := claim_C4_amended_numeric_split dfW4 3 150 0 (by decide) (by decide)
    (of_decide_eq_true (by with_unfolding_all rfl))
  rw [h]
  with_unfolding_all rfl

/-- Counterexample to claim C6: a column with `unique_count = 5` equal to
`umbral_categoria = 5` and cardinality percentage exactly equal to
`umbral_continua = 100` is assigned no type at all, hence neither
Numérica discreta nor Numérica continua. -/
theorem claim_C6_counterexample :
    nunique (dfC6.get ⟨0, by decide⟩) = 5 ∧
    cardin dfC6 (dfC6.get ⟨0, by decide⟩) = 100 ∧
    tipifica_variables dfC6 5 100 = [("x", none)] := by
  refine ⟨by decide, ?_, ?_⟩
  · with_unfolding_all rfl
  · with_unfolding_all rfl

/-- Claim C6 as amended: a column whose `unique_count` equals
`umbral_categoria` (and without exactly 2 unique values) is never
Categórica; it is Numérica continua when the cardinality percentage is
strictly above `umbral_continua`, Numérica discreta when strictly below,
and unassigned when exactly equal. -/
theorem claim_C6_amended_no_categorica (df : DataFrame) (catT contT : ℚ) (i : ℕ)
    (hi : i < df.length) (h2 : nunique df[i] ≠ 2)
    (heq : (nunique df[i] : ℚ) = catT) :
    (tipifica_variables df catT contT)[i]? =
      some ((df[i]).name,
        if cardin df df[i] > contT then some "Numérica continua"
        else if cardin df df[i] < contT then some "Numérica discreta"
        else none) ∧
    (tipifica_variables df catT contT)[i]? ≠ some ((df[i]).name, some "Categórica") := by
  have h : (tipifica_variables df catT contT)[i]? =
      some ((df[i]).name,
        if cardin df df[i] > contT then some "Numérica continua"
        else if cardin df df[i] < contT then some "Numérica discreta"
        else none) := by
    rw [tipifica_getElem df catT contT i hi]
    rw [tipoSugerido_of_ge _ _ _ _ h2 heq.ge]
  refine ⟨h, ?_⟩
  rw [h]
  intro hcontra
  rw [Option.some_inj, Prod.mk.injEq] at hcontra
  have hx := hcontra.2
  split_ifs at hx <;> simp_all

/-- Witness for amended claim C6: a 3-valued column with
`umbral_categoria = 3` (equal to its unique count) and
`umbral_continua = 150` is Numérica discreta, not Categórica. -/
theorem claim_C6_witness :
    (tipifica_variables dfW4 3 150)[0]? = some ("x", some "Numérica discreta") ∧
    (tipifica_variables dfW4 3 150)[0]? ≠ some ("x", some "Categórica") := by
  have h := claim_C6_amended_no_categorica dfW4 3 150 0 (by decide) (by decide)
    (of_decide_eq_true (by with_unfolding_all rfl))
  constructor
  · rw [h.1]
    with_unfolding_all rfl
  · exact fun hc => h.2 hc

/-- Claim C7: with an existing numeric target of fewer than 10 distinct
values, `check_parametros` rejects with the low-cardinality reason, for
every value of the threshold and p-value arguments (so the check runs
before the threshold and p-value checks). -/
theorem claim_C7_low_cardinality_first (df : DataFrame) (target : String)
    (corr cat cont : PyNum) (pv : Option PyNum) (col : Column)
    (hfind : df.find? (fun c => c.name = target) = some col)
    (hdt : col.dtype = Dtype.numeric) (hlow : nunique col < 10) :
    check_parametros df target corr cat cont pv =
      Except.error ("Error: " ++ target ++ " no parece ser una variable continua (baja cardinalidad).") := by
  unfold check_parametros
  rw [hfind]
  simp [hdt, hlow]

/-- Witness for claim C7: a target with exactly 5 distinct numeric values
is rejected for low cardinality even though the correlation threshold
(2) and the continuous threshold (an int) are themselves invalid. -/
theorem claim_C7_witness :
    check_parametros dfTarget5 "y" (PyNum.float 2) (PyNum.int 0) (PyNum.int 0) none =
      Except.error "Error: y no parece ser una variable continua (baja cardinalidad)." :=
  claim_C7_low_cardinality_first dfTarget5 "y" (PyNum.float 2) (PyNum.int 0) (PyNum.int 0)
    none colT5 (by with_unfolding_all rfl) rfl (by decide)

/-- After the target and the correlation/category threshold checks pass,
`check_parametros` reduces to the continuous-threshold check followed by
the p-value check. -/
lemma check_parametros_cont_step (df : DataFrame) (target : String)
    (corr cat cont : PyNum) (pv : Option PyNum) (col : Column)
    (hfind : df.find? (fun c => c.name = target) = some col)
    (hdt : col.dtype = Dtype.numeric) (hcard : ¬ (nunique col < 10))
    (hcorr : 0 ≤ corr.val ∧ corr.val ≤ 1)
    (hcat : cat.isInt = true ∧ ¬ (cat.val < 0)) :
    check_parametros df target corr cat cont pv =
      if ¬ cont.isFloat ∨ cont.val < 0 then
        Except.error "Error: umbral_continua debe ser un número decimal."
      else
        match pv with
        | some p =>
          if ¬ (0 < p.val ∧ p.val < 1) then
            Except.error "Error: pvalue debe ser un número entre 0 y 1 o None."
          else Except.ok "OK"
        | none => Except.ok "OK" := by
  unfold check_parametros
  rw [hfind]
  simp [hdt, hcard, hcorr.1, hcorr.2, hcat.1, hcat.2]

/-- Counterexample to claim C8: with every earlier check passing, the
integer 3 — a non-negative real number — supplied as `umbral_continua`
is rejected, because the check requires the value's runtime type to be
`float`. -/
theorem claim_C8_counterexample :
    (PyNum.int 3).isInt = true ∧ ¬ ((PyNum.int 3).val < 0) ∧
    check_parametros dfNum2 "y" (PyNum.float (1/2)) (PyNum.int 0) (PyNum.int 3) none =
      Except.error "Error: umbral_continua debe ser un número decimal." := by
  refine ⟨rfl, of_decide_eq_true (by with_unfolding_all rfl), ?_⟩
  with_unfolding_all rfl

/-- Claim C8 as amended: once all earlier checks pass, a supplied
`umbral_continua` is accepted exactly when it is a non-negative value of
runtime type `float`; any non-float value (integers included) or any
negative value is rejected with the invalid-continuous-threshold
reason. -/
theorem claim_C8_amended_float_required (df : DataFrame) (target : String)
    (corr cat cont : PyNum) (pv : Option PyNum) (col : Column)
    (hfind : df.find? (fun c => c.name = target) = some col)
    (hdt : col.dtype = Dtype.numeric) (hcard : ¬ (nunique col < 10))
    (hcorr : 0 ≤ corr.val ∧ corr.val ≤ 1)
    (hcat : cat.isInt = true ∧ ¬ (cat.val < 0)) :
    ((cont.isFloat = true ∧ ¬ (cont.val < 0)) →
      check_parametros df target corr cat cont pv ≠
        Except.error "Error: umbral_continua debe ser un número decimal.") ∧
    ((cont.isFloat = false ∨ cont.val < 0) →
      check_parametros df target corr cat cont pv =
        Except.error "Error: umbral_continua debe ser un número decimal.") := by
  rw [check_parametros_cont_step df target corr cat cont pv col hfind hdt hcard hcorr hcat]
  constructor
  · rintro ⟨hf, hnn⟩
    rw [if_neg (by simp [hf, hnn])]
    rcases pv with _ | p
    · simp
    · dsimp only
      split_ifs <;> simp
  · intro h
    rw [if_pos]
    rcases h with h | h
    · exact Or.inl (by simp [h])
    · exact Or.inr h

/-- Witness for amended claim C8: on a valid table and target, the float
25.0 is accepted (the call does not fail the continuous-threshold check)
while by the same theorem a negative float would be rejected. -/
theorem claim_C8_witness :
    check_parametros dfNum2 "y" (PyNum.float (1/2)) (PyNum.int 0) (PyNum.float 25) none ≠
      Except.error "Error: umbral_continua debe ser un número decimal." :=
  (claim_C8_amended_float_required dfNum2 "y" (PyNum.float (1/2)) (PyNum.int 0)
      (PyNum.float 25) none
      ⟨"y", Dtype.numeric, [0, 1, 2, 3, 4, 5, 6, 7, 8, 9].map (fun n => Cell.num n)⟩
      (by with_unfolding_all rfl) rfl (by decide)
      ⟨of_decide_eq_true (by with_unfolding_all rfl),
       of_decide_eq_true (by with_unfolding_all rfl)⟩
      ⟨rfl, of_decide_eq_true (by with_unfolding_all rfl)⟩).1
    ⟨rfl, of_decide_eq_true (by with_unfolding_all rfl)⟩

/-- Claim C5, evaluated on the failing input: a call that passes
validation (first conjunct) but whose numeric candidate column has no
pairwise-complete rows with the target reaches `pearsonr` with length-0
inputs, which raises, so the call aborts with an uncaught error instead
of returning the absent marker or a list (second conjunct) — while an
invalid call does return the absent marker (third conjunct), so the
claimed None/empty-list dichotomy is broken only by the crash. -/
theorem claim_C5_degenerate_crash :
    check_parametros dfNaN "y" (PyNum.float (1/2)) (PyNum.int 0) (PyNum.float (1/2)) none =
      Except.ok "OK" ∧
    get_features_num_regression pearsonUno dfNaN "y" (PyNum.float (1/2)) none =
      Except.error "x and y must have length at least 2." ∧
    get_features_num_regression pearsonUno [] "y" (PyNum.float (1/2)) none =
      Except.ok none := by
  refine ⟨?_, ?_, ?_⟩
  · with_unfolding_all rfl
  · with_unfolding_all rfl
  · with_unfolding_all rfl

/-- Claim C9: the classifier and both selectors are deterministic
functions of their inputs — two calls on equal unmodified tables with
equal arguments yield equal results. -/
theorem claim_C9_deterministic (df df' : DataFrame) (h : df = df') (catT contT : ℚ)
    (pearson : List (ℚ × ℚ) → ℚ × ℚ) (target : String) (uc : PyNum) (pv : Option PyNum)
    (mw : List Cell → List Cell → ℚ × ℚ) (anova : List (List Cell) → ℚ × ℚ)
    (pvc ucat ucont : PyNum) :
    tipifica_variables df catT contT = tipifica_variables df' catT contT ∧
    get_features_num_regression pearson df target uc pv =
      get_features_num_regression pearson df' target uc pv ∧
    get_features_cat_regression mw anova df target pvc ucat ucont =
      get_features_cat_regression mw anova df' target pvc ucat ucont := by
  subst h
  exact ⟨rfl, rfl, rfl⟩

/-- Witness for claim C9 at a concrete table and arguments. -/
theorem claim_C9_witness :
    tipifica_variables dfNum2 6 25 = tipifica_variables dfNum2 6 25 ∧
    get_features_num_regression pearsonUno dfNum2 "y" (PyNum.float (1/2)) none =
      get_features_num_regression pearsonUno dfNum2 "y" (PyNum.float (1/2)) none ∧
    get_features_cat_regression mwCero anovaCero dfNum2 "y" (PyNum.float (1/20))
        (PyNum.int 6) (PyNum.float 25) =
      get_features_cat_regression mwCero anovaCero dfNum2 "y" (PyNum.float (1/20))
        (PyNum.int 6) (PyNum.float 25) :=
  claim_C9_deterministic dfNum2 dfNum2 rfl 6 25 pearsonUno "y" (PyNum.float (1/2)) none
    mwCero anovaCero (PyNum.float (1/20)) (PyNum.int 6) (PyNum.float 25)

/-- Claim C3, evaluated on the failing input: with a valid target and a
constant categorical candidate column (a single distinct value, hence
fewer than 2), `get_features_cat_regression` does not skip the column —
it reaches `f_oneway` with one group, which raises, aborting the whole
selection.  The first two conjuncts show the column is a candidate with
one distinct value; the third shows the propagated error. -/
theorem claim_C3_degenerate_crash :
    nunique colConst = 1 ∧
    (tipifica_variables dfDegenerada 6 25)[1]? = some ("c", some "Categórica") ∧
    get_features_cat_regression mwCero anovaCero dfDegenerada "y" (PyNum.float (1/20))
      (PyNum.int 6) (PyNum.float 25) = Except.error "at least two inputs are required" := by
  refine ⟨by decide, ?_, ?_⟩
  · with_unfolding_all rfl
  · with_unfolding_all rfl

/-- Membership in `uniquePy` is membership in the original list. -/
lemma mem_uniquePy {x : Cell} {l : List Cell} : x ∈ uniquePy l ↔ x ∈ l := by
  simp [uniquePy, List.mem_reverse, List.mem_dedup]

/-- The list `uniquePy l` has no duplicates. -/
lemma nodup_uniquePy (l : List Cell) : (uniquePy l).Nodup := by
  unfold uniquePy
  exact List.nodup_reverse.mpr (List.nodup_dedup _)

/-- In a duplicate-free list containing a null, exactly one entry is
dropped by filtering nulls out. -/
lemma length_filter_ne_null (m : List Cell) (hm : m.Nodup) (h : Cell.null ∈ m) :
    m.length = (m.filter (fun x => x ≠ Cell.null)).length + 1 := by
  induction m with
  | nil => cases h
  | cons a t ih =>
    rcases List.mem_cons.mp h with rfl | ht
    · have hnt : Cell.null ∉ t := (List.nodup_cons.mp hm).1
      rw [List.filter_cons_of_neg (by simp)]
      have hself : t.filter (fun x => x ≠ Cell.null) = t := by
        rw [List.filter_eq_self]
        intro b hb
        simp only [ne_eq, decide_not, Bool.not_eq_eq_eq_not, Bool.not_true, decide_eq_false_iff_not]
        exact fun hbn => hnt (hbn ▸ hb)
      rw [hself, List.length_cons]
    · have hane : a ≠ Cell.null := fun h' => (List.nodup_cons.mp hm).1 (h' ▸ ht)
      rw [List.filter_cons_of_pos (by simp [hane])]
      have := ih (List.nodup_cons.mp hm).2 ht
      simp only [List.length_cons, this]

/-- Claim C10: a column containing at least one null and exactly 2
distinct non-null values is classified Binaria by the type rules (for
every cardinality and thresholds), yet `get_features_cat_regression`'s
branch test counts the null as a third distinct value, so the column is
not routed to the Mann-Whitney branch: `ramaBinaria` is false, and the
per-candidate test takes the ANOVA branch — its result does not depend
on the Mann-Whitney oracle at all. -/
theorem claim_C10_null_binary_anova (c : Column) (hnull : Cell.null ∈ c.values)
    (h2 : nunique c = 2) (card catT contT : ℚ) (df : DataFrame) (tvals : List Cell)
    (p : ℚ) (mw mw' : List Cell → List Cell → ℚ × ℚ) (anova : List (List Cell) → ℚ × ℚ)
    (hfind : df.find? (fun x => x.name = c.name) = some c) :
    tipoSugerido (nunique c) card catT contT = some "Binaria" ∧
    (uniquePy c.values).length = 3 ∧
    ramaBinaria c = false ∧
    testCandidate mw anova df tvals p c.name = testCandidate mw' anova df tvals p c.name := by
  have hlen : (uniquePy c.values).length = 3 := by
    have hsplit := length_filter_ne_null (uniquePy c.values) (nodup_uniquePy _)
      (mem_uniquePy.mpr hnull)
    have hn : ((uniquePy c.values).filter (fun x => x ≠ Cell.null)).length = 2 := h2
    rw [hn] at hsplit
    exact hsplit
  have hrb : ramaBinaria c = false := by
    unfold ramaBinaria
    rw [hlen]
    rfl
  refine ⟨by simp [tipoSugerido, h2], hlen, hrb, ?_⟩
  unfold testCandidate
  rw [hfind]
  dsimp only
  rw [hrb]
  rfl

/-- Witness for claim C10 on a concrete column with cells
`["a", null, "b"]`, two distinct Mann-Whitney oracles who nevertheless
produce the same test outcome. -/
theorem claim_C10_witness :
    tipoSugerido (nunique colBinNull) 50 6 25 = some "Binaria" ∧
    (uniquePy colBinNull.values).length = 3 ∧
    ramaBinaria colBinNull = false ∧
    testCandidate mwCero anovaCero [colBinNull] [] (1/20) colBinNull.name =
      testCandidate mwUno anovaCero [colBinNull] [] (1/20) colBinNull.name :=
  claim_C10_null_binary_anova colBinNull (by decide) (by decide) 50 6 25 [colBinNull] []
    (1/20) mwCero mwUno anovaCero (by with_unfolding_all rfl)

/-- Membership in a completed run of the `get_features_num_regression`
candidate loop: a name is collected exactly when it was already in the
accumulator or some remaining candidate passes the criterion on its
pairwise-complete cases. -/
lemma gfnrLoop_mem (pearson : List (ℚ × ℚ) → ℚ × ℚ) (tvals : List Cell) (uc : ℚ)
    (pv : Option PyNum) :
    ∀ (cols : List Column) (acc l : List String),
      gfnrLoop pearson tvals uc pv cols acc = Except.ok l →
      ∀ x : String, x ∈ l ↔ x ∈ acc ∨ ∃ c, c ∈ cols ∧
        criterioNumPair (pearson (dropnaPairs tvals c.values)) uc pv = true ∧ c.name = x := by
  intro cols
  induction cols with
  | nil =>
    intro acc l h x
    unfold gfnrLoop at h
    rw [Except.ok.injEq] at h
    subst h
    simp
  | cons col rest ih =>
    intro acc l h x
    unfold gfnrLoop at h
    cases hcall : pearsonrCall pearson (dropnaPairs tvals col.values) with
    | error e => rw [hcall] at h; cases h
    | ok cp =>
      rw [hcall] at h
      dsimp only at h
      have hcp : cp = pearson (dropnaPairs tvals col.values) := by
        unfold pearsonrCall at hcall
        by_cases hlen : (dropnaPairs tvals col.values).length < 2
        · rw [if_pos hlen] at hcall; cases hcall
        · rw [if_neg hlen, Except.ok.injEq] at hcall; exact hcall.symm
      by_cases hcrit : criterioNumPair cp uc pv = true
      · rw [if_pos hcrit] at h
        rw [ih (acc ++ [col.name]) l h x]
        constructor
        · rintro (hx | ⟨c, hc, hcr, hn⟩)
          · rcases List.mem_append.mp hx with hx | hx
            · exact Or.inl hx
            · refine Or.inr ⟨col, List.mem_cons_self col rest, ?_, ?_⟩
              · rw [← hcp]; exact hcrit
              · have hx' : x = col.name := by simpa using hx
                exact hx'.symm
          · exact Or.inr ⟨c, List.mem_cons_of_mem _ hc, hcr, hn⟩
        · rintro (hx | ⟨c, hc, hcr, hn⟩)
          · exact Or.inl (List.mem_append.mpr (Or.inl hx))
          · rcases List.mem_cons.mp hc with rfl | hc'
            · exact Or.inl (List.mem_append.mpr (Or.inr (by simp [hn.symm])))
            · exact Or.inr ⟨c, hc', hcr, hn⟩
      · rw [if_neg hcrit] at h
        rw [ih acc l h x]
        constructor
        · rintro (hx | ⟨c, hc, hcr, hn⟩)
          · exact Or.inl hx
          · exact Or.inr ⟨c, List.mem_cons_of_mem _ hc, hcr, hn⟩
        · rintro (hx | ⟨c, hc, hcr, hn⟩)
          · exact Or.inl hx
          · rcases List.mem_cons.mp hc with rfl | hc'
            · rw [← hcp] at hcr; exact absurd hcr hcrit
            · exact Or.inr ⟨c, hc', hcr, hn⟩

/-- Claim C2: on a validated call that completes with an actual list (no
propagated `pearsonr` exception), a numeric column other than the target
is in the result exactly when the absolute Pearson correlation on the
pairwise-complete cases is at least `umbral_corr` and (`pvalue` is
absent or the test's p-value is at most `1 - pvalue`).  Column names are
assumed unique, as in a pandas frame. -/
theorem claim_C2_seleccion_numerica (pearson : List (ℚ × ℚ) → ℚ × ℚ) (df : DataFrame)
    (target : String) (uc : PyNum) (pv : Option PyNum)
    (hnodup : (df.map (fun c => c.name)).Nodup)
    (result : List String)
    (hres : get_features_num_regression pearson df target uc pv = Except.ok (some result))
    (tcol : Column) (ht : df.find? (fun c => c.name = target) = some tcol)
    (col : Column) (hmem : col ∈ df) (hdt : col.dtype = Dtype.numeric)
    (hne : col.name ≠ target) :
    col.name ∈ result ↔
      (|(pearson (dropnaPairs tcol.values col.values)).1| ≥ uc.val ∧
       (pv = none ∨ ∃ p, pv = some p ∧
         (pearson (dropnaPairs tcol.values col.values)).2 ≤ 1 - p.val)) := by
  unfold get_features_num_regression at hres
  by_cases hchk :
      check_parametros df target uc (PyNum.int 0) (PyNum.float (1/2)) pv = Except.ok "OK"
  · rw [if_neg (not_not_intro hchk), ht] at hres
    dsimp only at hres
    cases hloop : gfnrLoop pearson tcol.values uc.val pv
        (df.filter (esNumericaNoTarget target)) [] with
    | error e => rw [hloop] at hres; cases hres
    | ok l =>
      rw [hloop] at hres
      rw [Except.ok.injEq, Option.some_inj] at hres
      subst hres
      rw [gfnrLoop_mem pearson tcol.values uc.val pv _ [] _ hloop col.name]
      simp only [List.not_mem_nil, false_or]
      constructor
      · rintro ⟨c, hcf, hcr, hn⟩
        have hcdf := (List.mem_filter.mp hcf).1
        have hceq : c = col := List.inj_on_of_nodup_map hnodup hcdf hmem hn
        subst hceq
        unfold criterioNumPair at hcr
        rw [Bool.and_eq_true] at hcr
        refine ⟨by simpa using hcr.1, ?_⟩
        cases pv with
        | none => exact Or.inl rfl
        | some p => exact Or.inr ⟨p, rfl, by simpa using hcr.2⟩
      · rintro ⟨h1, h2⟩
        refine ⟨col, ?_, ?_, rfl⟩
        · refine List.mem_filter.mpr ⟨hmem, ?_⟩
          unfold esNumericaNoTarget
          simp [hdt, hne]
        · unfold criterioNumPair
          rw [Bool.and_eq_true]
          refine ⟨by simpa using h1, ?_⟩
          cases pv with
          | none => rfl
          | some p =>
            rcases h2 with h2 | ⟨q, hq, hle⟩
            · cases h2
            · rw [Option.some_inj] at hq
              subst hq
              simpa using hle
  · rw [if_pos hchk] at hres
    simp at hres

/-- Witness for claim C2: on a concrete two-column table with a
perfect-correlation oracle, the non-target column is selected and the
criterion holds. -/
theorem claim_C2_witness :
    "x" ∈ ["x"] ↔
      (|(pearsonUno (dropnaPairs colYW.values colXW.values)).1| ≥ (PyNum.float (1/2)).val ∧
       ((none : Option PyNum) = none ∨ ∃ p, (none : Option PyNum) = some p ∧
         (pearsonUno (dropnaPairs colYW.values colXW.values)).2 ≤ 1 - p.val)) :=
  claim_C2_seleccion_numerica pearsonUno dfNum2 "y" (PyNum.float (1/2)) none
    (by decide) ["x"] (by with_unfolding_all rfl) colYW (by with_unfolding_all rfl)
    colXW (by decide) rfl (by decide)

end ToolboxML
